import Mathlib

/-!
Shallow embedding of the training-domain core of the repository
(`src/domain/training/types.ts` / `functions.ts`, latest revision: tagged-union
status), together with the date-range search function.

Modelling conventions:
* JavaScript `Date` values are modelled as `Int` timestamps in milliseconds;
  `date-fns` `startOfDay`/`endOfDay` round to fixed-length days of
  86 400 000 ms (time-zone offset taken as a constant zero).
* TypeScript `number` fields that carry fractional values (`capacity`,
  `price`) are modelled as `Rat`.
* `Result<T>` from `src/shared/types.ts` is the two-variant success/failure
  type.
* `TrainingSchema.safeParse` (zod) is modelled as a function returning the
  first violated constraint's message, checking the object's fields in their
  declaration order (id, title, description, location, capacity, price,
  status); `date`, `level`, `createdAt`, `updatedAt` are well-typed by
  construction.  The tagged-union status schema (reason `min(1)`/`min(5)`)
  is taken from the repository's design document, which lists
  `TrainingStatusSchema` for `src/domain/training/types.ts`.
* The identifier factory and the clock are external collaborators; they are
  passed to the operations as explicit arguments (`newId`, `now`).
-/

/-- Result type from `src/shared/types.ts`: success with a value or failure
with an error message. -/
inductive Result (α : Type) where
  | success (value : α) : Result α
  | failure (error : String) : Result α
deriving DecidableEq, Repr

/-- True exactly on `Result.success`. -/
def Result.isSuccess {α : Type} : Result α → Bool
  | .success _ => true
  | .failure _ => false

/-- Training level enumeration from `types.ts`. -/
inductive TrainingLevel where
  | BEGINNER
  | INTERMEDIATE
  | ADVANCED
deriving DecidableEq, Repr

/-- Training status as the tagged union of the latest revision:
`{type: 'DRAFT'} | {type: 'OPEN'} | {type: 'COMPLETED'} |
{type: 'CANCELED'; reason: string}`. -/
inductive TrainingStatus where
  | DRAFT
  | OPEN
  | COMPLETED
  | CANCELED (reason : String)
deriving DecidableEq, Repr

/-- Discriminator string of a status value (the `.type` field of the tagged
union). -/
def TrainingStatus.tag : TrainingStatus → String
  | .DRAFT => "DRAFT"
  | .OPEN => "OPEN"
  | .COMPLETED => "COMPLETED"
  | .CANCELED _ => "CANCELED"

/-- The target parameter of `updateTrainingStatus`, whose TypeScript type is
the string union `'DRAFT' | 'OPEN' | 'COMPLETED'`. -/
inductive StatusTarget where
  | DRAFT
  | OPEN
  | COMPLETED
deriving DecidableEq, Repr

/-- The literal string a `StatusTarget` stands for. -/
def StatusTarget.tag : StatusTarget → String
  | .DRAFT => "DRAFT"
  | .OPEN => "OPEN"
  | .COMPLETED => "COMPLETED"

namespace TrainingStatusFactory

/-- Factory helper `TrainingStatusFactory.draft()`. -/
def draft : TrainingStatus := .DRAFT

/-- Factory helper `TrainingStatusFactory.open()` (named `mkOpen` here because
`open` is a Lean keyword). -/
def mkOpen : TrainingStatus := .OPEN

/-- Factory helper `TrainingStatusFactory.completed()`. -/
def completed : TrainingStatus := .COMPLETED

/-- Factory helper `TrainingStatusFactory.canceled(reason)`. -/
def canceled (reason : String) : TrainingStatus := .CANCELED reason

end TrainingStatusFactory

/-- The training entity, mirroring the zod object `TrainingSchema` field for
field. -/
structure Training where
  id : String
  title : String
  description : String
  date : Int
  location : String
  capacity : Rat
  level : TrainingLevel
  price : Rat
  status : TrainingStatus
  createdAt : Int
  updatedAt : Int
deriving DecidableEq, Repr

/-- Hexadecimal-digit test used by the UUID shape check. -/
def isHexDigit (c : Char) : Bool :=
  c.isDigit || ('a' ≤ c && c ≤ 'f') || ('A' ≤ c && c ≤ 'F')

/-- Splits a character list at every hyphen (the groups of the UUID shape). -/
def splitOnDash : List Char → List (List Char)
  | [] => [[]]
  | c :: cs =>
    if c = '-' then [] :: splitOnDash cs
    else
      match splitOnDash cs with
      | g :: gs => (c :: g) :: gs
      | [] => [[c]]

/-- Shape check behind `z.string().uuid()` (zod 3.22): five hyphen-separated
hex groups of sizes 8-4-4-4-12 with version digit 1-5, or the nil UUID. -/
def isUuid (s : String) : Bool :=
  s = "00000000-0000-0000-0000-000000000000" ||
  match splitOnDash s.toList with
  | [a, b, c, d, e] =>
    a.length = 8 && b.length = 4 && c.length = 4 && d.length = 4 &&
    e.length = 12 && a.all isHexDigit && b.all isHexDigit &&
    c.all isHexDigit && d.all isHexDigit && e.all isHexDigit &&
    (match c with
     | v :: _ => '1' ≤ v && v ≤ '5'
     | [] => false)
  | _ => false

/-- Message of `title: z.string().min(1, ...)`. -/
def titleRequiredMsg : String := "タイトルは必須です"

/-- Message of `description: z.string().min(1, ...)`. -/
def descriptionRequiredMsg : String := "説明は必須です"

/-- Message of `location: z.string().min(1, ...)`. -/
def locationRequiredMsg : String := "場所は必須です"

/-- Message of `capacity: z.number().positive(...)`. -/
def capacityMsg : String := "定員は1以上である必要があります"

/-- Message of `price: z.number().nonnegative(...)`. -/
def priceMsg : String := "価格は0以上である必要があります"

/-- Message of the cancellation reason's `min(1, ...)` check. -/
def reasonRequiredMsg : String := "中止理由は必須です"

/-- Message of the cancellation reason's `min(5, ...)` check. -/
def reasonTooShortMsg : String := "中止理由は5文字以上である必要があります"

/-- Validation of the status variant against `TrainingStatusSchema`: only the
`CANCELED` variant carries runtime constraints (reason `min(1)` then
`min(5)`); returns the first violated message, if any. -/
def validateStatus : TrainingStatus → Option String
  | .CANCELED reason =>
    if reason.length < 1 then some reasonRequiredMsg
    else if reason.length < 5 then some reasonTooShortMsg
    else none
  | _ => none

namespace TrainingSchema

/-- Model of `TrainingSchema.safeParse` followed by the repository's uniform
`errors[0]?.message` extraction: checks the object's constrained fields in
declaration order and returns the first violated constraint's message, or the
unchanged entity on success (zod's `result.data` carries the same field
values). -/
def safeParse (t : Training) : Result Training :=
  if !isUuid t.id then .failure "Invalid uuid"
  else if t.title.length < 1 then .failure titleRequiredMsg
  else if t.description.length < 1 then .failure descriptionRequiredMsg
  else if t.location.length < 1 then .failure locationRequiredMsg
  else if !(0 < t.capacity) then .failure capacityMsg
  else if !(0 ≤ t.price) then .failure priceMsg
  else
    match validateStatus t.status with
    | some m => .failure m
    | none => .success t

end TrainingSchema

/-- Input record `CreateTrainingInput`. -/
structure CreateTrainingInput where
  title : String
  description : String
  date : Int
  location : String
  capacity : Rat
  level : TrainingLevel
  price : Rat
deriving DecidableEq, Repr

/-- The candidate entity object `createTraining` builds before validation
(`const training = {...}` in the source): the input's field values with a
fresh id, status `DRAFT` and `createdAt = updatedAt = now`. -/
def builtTraining (input : CreateTrainingInput) (newId : String) (now : Int) :
    Training :=
  { id := newId
    title := input.title
    description := input.description
    date := input.date
    location := input.location
    capacity := input.capacity
    level := input.level
    price := input.price
    status := TrainingStatusFactory.draft
    createdAt := now
    updatedAt := now }

/-- The function `createTraining` of `src/domain/training/types.ts` (latest
revision): builds the candidate entity, then validates it against the schema.
The identifier generated by `createTrainingId()` and the clock value
`new Date()` are passed in as `newId` and `now`. -/
def createTraining (input : CreateTrainingInput) (newId : String) (now : Int) :
    Result Training :=
  TrainingSchema.safeParse (builtTraining input newId now)

/-- Error message for a direct draft-to-completed transition. -/
def directDraftCompletedMsg : String :=
  "ドラフト状態から開催済み状態に直接更新することはできません"

/-- Error message when updating a completed training. -/
def completedImmutableMsg : String := "開催済み状態から変更することはできません"

/-- Error message when updating a canceled training. -/
def canceledImmutableMsg : String := "中止状態の研修は変更できません"

/-- Error message when canceling a completed training. -/
def completedCannotCancelMsg : String := "開催済み状態の研修は中止にできません"

/-- Error message when canceling an already canceled training. -/
def alreadyCanceledMsg : String := "すでに中止済みの研修です"

/-- The function `updateTrainingStatus` of the latest revision: same-state
no-op, then the transition guards (draft→completed forbidden, completed and
canceled immutable), then the copy with the new status object and
`updatedAt = now`, re-validated against the schema. -/
def updateTrainingStatus (training : Training) (newStatus : StatusTarget)
    (now : Int) : Result Training :=
  let currentStatus := training.status.tag
  if currentStatus = newStatus.tag then
    .success training
  else if currentStatus = "DRAFT" && newStatus.tag = "COMPLETED" then
    .failure directDraftCompletedMsg
  else if currentStatus = "COMPLETED" then
    .failure completedImmutableMsg
  else if currentStatus = "CANCELED" then
    .failure canceledImmutableMsg
  else
    let updatedStatus : TrainingStatus :=
      match newStatus with
      | .DRAFT => TrainingStatusFactory.draft
      | .OPEN => TrainingStatusFactory.mkOpen
      | .COMPLETED => TrainingStatusFactory.completed
    TrainingSchema.safeParse
      { training with status := updatedStatus, updatedAt := now }

/-- The function `cancelTraining` of the latest revision: the status guards
(completed, then already-canceled) come first; the copy with
`TrainingStatusFactory.canceled(reason)` and `updatedAt = now` is then
re-validated against the schema, which is where the reason length rules are
enforced. -/
def cancelTraining (training : Training) (reason : String) (now : Int) :
    Result Training :=
  if training.status.tag = "COMPLETED" then
    .failure completedCannotCancelMsg
  else if training.status.tag = "CANCELED" then
    .failure alreadyCanceledMsg
  else
    TrainingSchema.safeParse
      { training with
          status := TrainingStatusFactory.canceled reason
          updatedAt := now }

/-- Length of a day in milliseconds. -/
def dayMs : Int := 86400000

/-- Model of `date-fns` `startOfDay`: the instant rounded down to its day. -/
def startOfDay (t : Int) : Int := (t / dayMs) * dayMs

/-- Model of `date-fns` `endOfDay`: the last millisecond (23:59:59.999) of the
instant's day. -/
def endOfDay (t : Int) : Int := startOfDay t + dayMs - 1

/-- Search criteria record `SearchTrainingCriteria`. -/
structure SearchTrainingCriteria where
  startDate : Int
  endDate : Int
deriving DecidableEq, Repr

/-- Range predicate of the `searchTrainings` filter: the entity date lies
within `[startOfDay startDate, endOfDay endDate]`. -/
def dateInRange (criteria : SearchTrainingCriteria) (d : Int) : Bool :=
  decide (startOfDay criteria.startDate ≤ d) &&
  decide (d ≤ endOfDay criteria.endDate)

/-- The function `searchTrainings` of `src/domain/training/functions.ts`:
filter the entities whose date falls within the day-widened range, then sort
ascending by date.  (The source has no raw `startDate > endDate` guard.) -/
def searchTrainings (trainings : List Training)
    (criteria : SearchTrainingCriteria) : List Training :=
  (trainings.filter (fun tr => dateInRange criteria tr.date)).mergeSort
    (fun a b => decide (a.date ≤ b.date))

/-- A concrete identifier of the UUID shape produced by `createTrainingId`. -/
def sampleId : String := "123e4567-e89b-12d3-a456-426614174000"

/-- A concrete schema-valid entity in `DRAFT` state (field values taken from
the repository's test fixtures). -/
def draftSample : Training :=
  { id := sampleId
    title := "アジャイル開発入門"
    description := "初心者向けのアジャイル開発の基礎を学ぶ研修です"
    date := 1748736000000
    location := "東京都千代田区"
    capacity := 20
    level := .BEGINNER
    price := 50000
    status := .DRAFT
    createdAt := 1735689600000
    updatedAt := 1735689600000 }

/-- The sample entity in `OPEN` state. -/
def openSample : Training := { draftSample with status := .OPEN }

/-- The sample entity in `COMPLETED` state. -/
def completedSample : Training := { draftSample with status := .COMPLETED }

/-- The sample entity in `CANCELED` state. -/
def canceledSample : Training :=
  { draftSample with status := .CANCELED "講師の都合により中止" }

/-- Creation input whose capacity is the fractional number 1/2 and whose
price is negative; title, description and location are valid. -/
def fractionalCapacityNegPriceInput : CreateTrainingInput :=
  { title := "タイトル"
    description := "説明文"
    date := 0
    location := "東京"
    capacity := Rat.mk' 1 2 (by decide) (by decide)
    level := .BEGINNER
    price := -1 }

/-- Creation input whose capacity is the fractional number 1/2; every other
field is valid. -/
def fractionalCapacityInput : CreateTrainingInput :=
  { fractionalCapacityNegPriceInput with price := 0 }

/-- The entity `createTraining` produces for `fractionalCapacityInput` with
identifier `sampleId` and clock instant 0. -/
def fractionalCapacityTraining : Training :=
  { id := sampleId
    title := "タイトル"
    description := "説明文"
    date := 0
    location := "東京"
    capacity := Rat.mk' 1 2 (by decide) (by decide)
    level := .BEGINNER
    price := 0
    status := .DRAFT
    createdAt := 0
    updatedAt := 0 }

/-- Search criteria whose raw `startDate` is later than its raw `endDate`
although both instants fall on the same calendar day (day 0). -/
def sameDayInvertedCriteria : SearchTrainingCriteria :=
  { startDate := 1000, endDate := 500 }

/-- An entity dated within that same calendar day. -/
def sameDayEntity : Training := { draftSample with date := 700 }

/-- Validity: the schema accepts the entity (and returns it unchanged). -/
abbrev Valid (t : Training) : Prop :=
  TrainingSchema.safeParse t = .success t

set_option linter.unnecessarySeqFocus false in
/-- The schema never rewrites the entity: a successful parse returns its
input. -/
theorem safeParse_success_eq {t u : Training}
    (h : TrainingSchema.safeParse t = .success u) : u = t := by
  unfold TrainingSchema.safeParse at h
  cases hv : validateStatus t.status <;> rw [hv] at h <;>
    split_ifs at h <;> simp_all

set_option linter.unnecessarySeqFocus false in
/-- Field-level characterisation of validity. -/
theorem valid_iff (t : Training) :
    Valid t ↔ (isUuid t.id = true ∧ 1 ≤ t.title.length ∧
      1 ≤ t.description.length ∧ 1 ≤ t.location.length ∧
      0 < t.capacity ∧ 0 ≤ t.price ∧ validateStatus t.status = none) := by
  unfold Valid TrainingSchema.safeParse
  cases hv : validateStatus t.status <;>
    split_ifs with h1 h2 h3 h4 h5 h6 <;>
    simp_all <;> omega

/-- Preservation: replacing only `status` and `updatedAt` of a valid entity
keeps the schema satisfied whenever the new status itself validates. -/
theorem valid_update {t : Training} (s : TrainingStatus) (now : Int)
    (h : Valid t) (hs : validateStatus s = none) :
    Valid { t with status := s, updatedAt := now } := by
  rw [valid_iff] at h ⊢
  exact ⟨h.1, h.2.1, h.2.2.1, h.2.2.2.1, h.2.2.2.2.1, h.2.2.2.2.2.1, hs⟩

/-- The sample entity parses, in each of its four status variants. -/
theorem samples_valid : Valid draftSample ∧ Valid openSample ∧
    Valid completedSample ∧ Valid canceledSample := by
  refine ⟨?_, ?_, ?_, ?_⟩ <;> · show TrainingSchema.safeParse _ = _; decide

/-- Re-validation of a status/updatedAt copy of a valid entity reduces to the
status check alone: the field checks all pass, so the outcome is decided by
`validateStatus` of the new status. -/
theorem safeParse_update_eq (t : Training) (s : TrainingStatus) (now : Int)
    (h : Valid t) :
    TrainingSchema.safeParse { t with status := s, updatedAt := now } =
      (match validateStatus s with
       | some m => Result.failure m
       | none => Result.success { t with status := s, updatedAt := now }) := by
  rcases (valid_iff t).mp h with ⟨h1, h2, h3, h4, h5, h6, -⟩
  show (if !isUuid t.id then _ else _) = _
  rw [if_neg (by simp [h1]), if_neg (by simp; omega), if_neg (by simp; omega),
      if_neg (by simp; omega), if_neg (by simp [h5]), if_neg (by simp [h6])]

/-- C3 (confirmed): a same-state `updateTrainingStatus` returns success with
the entity unchanged — the very value, including `updatedAt`; no timestamp
bump happens. -/
theorem updateStatus_same_state_noop (t : Training) (target : StatusTarget)
    (now : Int) (h : t.status.tag = target.tag) :
    updateTrainingStatus t target now = .success t := by
  unfold updateTrainingStatus
  simp [h]

/-- Witness for C3 at a concrete entity: a DRAFT entity updated to DRAFT is
returned unchanged. -/
theorem updateStatus_same_state_noop_witness :
    updateTrainingStatus draftSample .DRAFT 42 = .success draftSample :=
  updateStatus_same_state_noop draftSample .DRAFT 42 rfl

/-- C5 (confirmed): a canceled entity is immutable — every update target is
rejected with the canceled-immutable message, and re-cancelation is rejected
with the already-canceled message, for every reason string. -/
theorem canceled_immutable (t : Training) (r : String) (target : StatusTarget)
    (reason : String) (now : Int) (h : t.status = .CANCELED r) :
    updateTrainingStatus t target now = .failure canceledImmutableMsg ∧
    cancelTraining t reason now = .failure alreadyCanceledMsg := by
  constructor
  · unfold updateTrainingStatus
    cases target <;> simp [h, TrainingStatus.tag, StatusTarget.tag]
  · unfold cancelTraining
    simp [h, TrainingStatus.tag]

/-- Witness for C5 at a concrete canceled entity. -/
theorem canceled_immutable_witness :
    updateTrainingStatus canceledSample .OPEN 42 =
      .failure canceledImmutableMsg ∧
    cancelTraining canceledSample "別の理由で中止" 42 =
      .failure alreadyCanceledMsg :=
  canceled_immutable canceledSample "講師の都合により中止" .OPEN
    "別の理由で中止" 42 rfl

/-- C2 counterexample: the claim says `updateTrainingStatus` on a completed
entity fails for every target in {Draft, Open, Completed}, but the target
`COMPLETED` hits the same-state no-op branch first and succeeds. -/
theorem completed_update_completed_succeeds :
    updateTrainingStatus completedSample .COMPLETED 42 =
      .success completedSample ∧
    ∀ e, updateTrainingStatus completedSample .COMPLETED 42 ≠
      .failure e := by
  refine ⟨by decide, fun e h => ?_⟩
  rw [show updateTrainingStatus completedSample .COMPLETED 42 =
    .success completedSample from by decide] at h
  exact Result.noConfusion h

/-- C2 amended (proved): a completed entity rejects the real state changes
(targets DRAFT and OPEN) with the completed-immutable message and rejects
cancelation with the completed-cannot-cancel message for every reason; the
same-state target COMPLETED alone is a successful no-op. -/
theorem completed_terminal (t : Training) (reason : String) (now : Int)
    (h : t.status = .COMPLETED) :
    updateTrainingStatus t .DRAFT now = .failure completedImmutableMsg ∧
    updateTrainingStatus t .OPEN now = .failure completedImmutableMsg ∧
    updateTrainingStatus t .COMPLETED now = .success t ∧
    cancelTraining t reason now = .failure completedCannotCancelMsg := by
  refine ⟨?_, ?_, ?_, ?_⟩ <;>
    simp [updateTrainingStatus, cancelTraining, h, TrainingStatus.tag,
      StatusTarget.tag]

/-- Witness for the amended C2 at a concrete completed entity with a valid
(≥ 5 characters) reason. -/
theorem completed_terminal_witness :
    updateTrainingStatus completedSample .DRAFT 42 =
      .failure completedImmutableMsg ∧
    updateTrainingStatus completedSample .OPEN 42 =
      .failure completedImmutableMsg ∧
    updateTrainingStatus completedSample .COMPLETED 42 =
      .success completedSample ∧
    cancelTraining completedSample "講師の都合により中止" 42 =
      .failure completedCannotCancelMsg :=
  completed_terminal completedSample "講師の都合により中止" 42 rfl

/-- C1 (confirmed): from DRAFT the target COMPLETED is rejected with the
direct draft-to-completed message; every other distinct pairing of a source
in {DRAFT, OPEN} and a target in {DRAFT, OPEN, COMPLETED} — Draft→Open,
Open→Completed and Open→Draft — succeeds with the target status and
`updatedAt` set to the clock instant. -/
theorem updateStatus_transitions (t : Training) (now : Int) (h : Valid t) :
    (t.status = .DRAFT →
      updateTrainingStatus t .COMPLETED now =
        .failure directDraftCompletedMsg) ∧
    (t.status = .DRAFT →
      updateTrainingStatus t .OPEN now =
        .success { t with status := .OPEN, updatedAt := now }) ∧
    (t.status = .OPEN →
      updateTrainingStatus t .COMPLETED now =
        .success { t with status := .COMPLETED, updatedAt := now }) ∧
    (t.status = .OPEN →
      updateTrainingStatus t .DRAFT now =
        .success { t with status := .DRAFT, updatedAt := now }) := by
  have hopen := safeParse_update_eq t .OPEN now h
  have hcompleted := safeParse_update_eq t .COMPLETED now h
  have hdraft := safeParse_update_eq t .DRAFT now h
  refine ⟨fun hs => ?_, fun hs => ?_, fun hs => ?_, fun hs => ?_⟩ <;>
    simp_all [updateTrainingStatus, TrainingStatus.tag, StatusTarget.tag,
      TrainingStatusFactory.draft, TrainingStatusFactory.mkOpen,
      TrainingStatusFactory.completed, validateStatus]

/-- Witness for C1 at a concrete valid entity: the Draft→Open transition
succeeds with the new status and timestamp. -/
theorem updateStatus_transitions_witness :
    updateTrainingStatus draftSample .OPEN 42 =
      .success { draftSample with status := .OPEN, updatedAt := 42 } :=
  (updateStatus_transitions draftSample 42 (by decide)).2.1 rfl

/-- C10 (confirmed): every successful `updateTrainingStatus` and every
successful `cancelTraining` preserves id, title, description, date, location,
capacity, level, price and createdAt — only `status` and `updatedAt` can
differ from the input entity. -/
theorem lifecycle_frame (t u v : Training) (target : StatusTarget)
    (reason : String) (now : Int) :
    (updateTrainingStatus t target now = .success u →
      u.id = t.id ∧ u.title = t.title ∧ u.description = t.description ∧
      u.date = t.date ∧ u.location = t.location ∧
      u.capacity = t.capacity ∧ u.level = t.level ∧ u.price = t.price ∧
      u.createdAt = t.createdAt) ∧
    (cancelTraining t reason now = .success v →
      v.id = t.id ∧ v.title = t.title ∧ v.description = t.description ∧
      v.date = t.date ∧ v.location = t.location ∧
      v.capacity = t.capacity ∧ v.level = t.level ∧ v.price = t.price ∧
      v.createdAt = t.createdAt) := by
  constructor
  · intro hu
    simp only [updateTrainingStatus] at hu
    split_ifs at hu
    · injection hu with h
      subst h
      exact ⟨rfl, rfl, rfl, rfl, rfl, rfl, rfl, rfl, rfl⟩
    · have h := safeParse_success_eq hu
      subst h
      exact ⟨rfl, rfl, rfl, rfl, rfl, rfl, rfl, rfl, rfl⟩
  · intro hv
    simp only [cancelTraining] at hv
    split_ifs at hv
    · have h := safeParse_success_eq hv
      subst h
      exact ⟨rfl, rfl, rfl, rfl, rfl, rfl, rfl, rfl, rfl⟩

/-- Witness for C10: a concrete successful cancelation and a concrete
successful update both preserve the frame fields. -/
theorem lifecycle_frame_witness :
    draftSample.id = draftSample.id ∧ draftSample.title = draftSample.title :=
  have h := (lifecycle_frame draftSample
    { draftSample with status := .OPEN, updatedAt := 42 }
    { draftSample with
        status := .CANCELED "講師の都合により中止"
        updatedAt := 42 } .OPEN "講師の都合により中止" 42)
  have h1 := h.1 (by decide)
  have h2 := h.2 (by decide)
  ⟨h1.1.symm ▸ rfl, h2.2.1.symm ▸ rfl⟩

/-- C4 counterexample: the claim puts the reason checks before the status
checks, so a completed entity with an empty reason would fail with the
reason-required message — but the code checks status first and returns the
completed-cannot-cancel message instead. -/
theorem cancel_checks_status_before_reason :
    cancelTraining completedSample "" 42 =
      .failure completedCannotCancelMsg ∧
    completedCannotCancelMsg ≠ reasonRequiredMsg := by
  exact ⟨by decide, by decide⟩

/-- C4 amended (proved): `cancelTraining` applies the status checks first
(Completed, then Canceled, each failing regardless of the reason) and only
then the reason rules, which the schema enforces on the copied entity: for a
valid entity in DRAFT or OPEN an empty reason fails with the reason-required
message, a reason of length 1–4 fails with the too-short message, and a
reason of length ≥ 5 succeeds, returning status `CANCELED` carrying exactly
the given reason and `updatedAt` set to the clock instant. -/
theorem cancelTraining_spec (t : Training) (reason : String) (now : Int) :
    (t.status.tag = "COMPLETED" →
      cancelTraining t reason now = .failure completedCannotCancelMsg) ∧
    (t.status.tag = "CANCELED" →
      cancelTraining t reason now = .failure alreadyCanceledMsg) ∧
    (Valid t → (t.status = .DRAFT ∨ t.status = .OPEN) →
      ((reason.length = 0 →
          cancelTraining t reason now = .failure reasonRequiredMsg) ∧
       (1 ≤ reason.length → reason.length < 5 →
          cancelTraining t reason now = .failure reasonTooShortMsg) ∧
       (5 ≤ reason.length →
          cancelTraining t reason now =
            .success { t with status := .CANCELED reason,
                              updatedAt := now }))) := by
  refine ⟨fun hc => ?_, fun hc => ?_, fun hv hst => ?_⟩
  · unfold cancelTraining
    simp [hc]
  · unfold cancelTraining
    rw [if_neg (by simp [hc]), if_pos hc]
  · have hupd := safeParse_update_eq t (.CANCELED reason) now hv
    have htag : t.status.tag = "DRAFT" ∨ t.status.tag = "OPEN" := by
      rcases hst with hst | hst <;> simp [hst, TrainingStatus.tag]
    have hnc : ¬ t.status.tag = "COMPLETED" := by
      rcases htag with htag | htag <;> simp [htag]
    have hnx : ¬ t.status.tag = "CANCELED" := by
      rcases htag with htag | htag <;> simp [htag]
    refine ⟨fun hr => ?_, fun hr1 hr5 => ?_, fun hr => ?_⟩ <;>
      (unfold cancelTraining
       rw [if_neg hnc, if_neg hnx]
       show TrainingSchema.safeParse
         { t with status := .CANCELED reason, updatedAt := now } = _
       rw [hupd]
       simp only [validateStatus])
    · rw [if_pos (by omega)]
    · rw [if_neg (by omega), if_pos (by omega)]
    · rw [if_neg (by omega), if_neg (by omega)]

/-- Witness for the amended C4 at a concrete valid DRAFT entity with a
five-character-plus reason. -/
theorem cancelTraining_spec_witness :
    cancelTraining draftSample "講師の都合により中止" 42 =
      .success { draftSample with
        status := .CANCELED "講師の都合により中止"
        updatedAt := 42 } :=
  ((cancelTraining_spec draftSample "講師の都合により中止" 42).2.2
    (by decide) (Or.inl rfl)).2.2 (by decide)

/-- C6 counterexample: the capacity check implemented by the schema is
`capacity > 0`, not `capacity ≥ 1` — on an input with capacity 1/2 and a
negative price the capacity check passes and the first failure is the price
constraint, while the claimed precedence (with a `capacity ≥ 1` rule) would
stop at the capacity message. -/
theorem createTraining_capacity_half_gives_price_error :
    createTraining fractionalCapacityNegPriceInput sampleId 0 =
      .failure priceMsg ∧
    fractionalCapacityNegPriceInput.capacity < 1 ∧
    priceMsg ≠ capacityMsg := ⟨by decide, by decide, by decide⟩

/-- C6 amended (proved): `createTraining` validates in the fixed precedence
order title non-empty → description non-empty → location non-empty →
capacity > 0 → price ≥ 0, stopping at the first failure and returning exactly
that constraint's message (the capacity rule is strict positivity, not ≥ 1,
so only inputs with capacity ≤ 0 stop there). -/
theorem createTraining_precedence (input : CreateTrainingInput)
    (newId : String) (now : Int) (hid : isUuid newId = true) :
    (input.title.length = 0 →
      createTraining input newId now = .failure titleRequiredMsg) ∧
    (1 ≤ input.title.length → input.description.length = 0 →
      createTraining input newId now = .failure descriptionRequiredMsg) ∧
    (1 ≤ input.title.length → 1 ≤ input.description.length →
      input.location.length = 0 →
      createTraining input newId now = .failure locationRequiredMsg) ∧
    (1 ≤ input.title.length → 1 ≤ input.description.length →
      1 ≤ input.location.length → input.capacity ≤ 0 →
      createTraining input newId now = .failure capacityMsg) ∧
    (1 ≤ input.title.length → 1 ≤ input.description.length →
      1 ≤ input.location.length → 0 < input.capacity → input.price < 0 →
      createTraining input newId now = .failure priceMsg) := by
  refine ⟨fun h1 => ?_, fun h1 h2 => ?_, fun h1 h2 h3 => ?_,
    fun h1 h2 h3 h4 => ?_, fun h1 h2 h3 h4 h5 => ?_⟩ <;>
    (unfold createTraining TrainingSchema.safeParse
     simp only [builtTraining])
  · rw [if_neg (show ¬(!isUuid newId) = true by simp [hid]),
        if_pos (show input.title.length < 1 by omega)]
  · rw [if_neg (show ¬(!isUuid newId) = true by simp [hid]),
        if_neg (show ¬input.title.length < 1 by omega),
        if_pos (show input.description.length < 1 by omega)]
  · rw [if_neg (show ¬(!isUuid newId) = true by simp [hid]),
        if_neg (show ¬input.title.length < 1 by omega),
        if_neg (show ¬input.description.length < 1 by omega),
        if_pos (show input.location.length < 1 by omega)]
  · rw [if_neg (show ¬(!isUuid newId) = true by simp [hid]),
        if_neg (show ¬input.title.length < 1 by omega),
        if_neg (show ¬input.description.length < 1 by omega),
        if_neg (show ¬input.location.length < 1 by omega),
        if_pos (show (!decide (0 < input.capacity)) = true by
          simpa using not_lt.mpr h4)]
  · rw [if_neg (show ¬(!isUuid newId) = true by simp [hid]),
        if_neg (show ¬input.title.length < 1 by omega),
        if_neg (show ¬input.description.length < 1 by omega),
        if_neg (show ¬input.location.length < 1 by omega),
        if_neg (show ¬(!decide (0 < input.capacity)) = true by simp [h4]),
        if_pos (show (!decide (0 ≤ input.price)) = true by
          simpa using not_le.mpr h5)]

/-- Witness for the amended C6: an input violating both the title rule and
the price rule fails with the title message, the earliest in the order. -/
theorem createTraining_precedence_witness :
    createTraining { fractionalCapacityNegPriceInput with title := "" }
      sampleId 0 = .failure titleRequiredMsg :=
  (createTraining_precedence
    { fractionalCapacityNegPriceInput with title := "" } sampleId 0
    (by decide)).1 rfl

/-- C7 counterexample: `createTraining` accepts a capacity of 1/2 — the
returned entity's capacity is below 1 and not an integer (its denominator is
2), so the §3 invariant "capacity is an integer and ≥ 1" does not hold of
every successful result. -/
theorem createTraining_accepts_fractional_capacity :
    createTraining fractionalCapacityInput sampleId 0 =
      .success fractionalCapacityTraining ∧
    fractionalCapacityTraining.capacity < 1 ∧
    fractionalCapacityTraining.capacity.den = 2 :=
  ⟨by decide, by decide, by decide⟩

/-- C7 amended (proved): with a well-shaped generated identifier,
`createTraining` succeeds exactly when title, description and location are
non-empty, capacity > 0 and price ≥ 0 (capacity 0 is rejected, 1 accepted,
but fractional capacities below 1 are accepted too; price 0 is permitted);
on success the entity carries the generated identifier, the input's field
values, status `DRAFT`, and `createdAt = updatedAt = now`. -/
theorem createTraining_success_spec (input : CreateTrainingInput)
    (newId : String) (now : Int) (hid : isUuid newId = true) :
    ((∃ t, createTraining input newId now = .success t) ↔
      (1 ≤ input.title.length ∧ 1 ≤ input.description.length ∧
       1 ≤ input.location.length ∧ 0 < input.capacity ∧ 0 ≤ input.price)) ∧
    (∀ t, createTraining input newId now = .success t →
      t.id = newId ∧ t.title = input.title ∧
      t.description = input.description ∧ t.date = input.date ∧
      t.location = input.location ∧ t.capacity = input.capacity ∧
      t.level = input.level ∧ t.price = input.price ∧
      t.status = .DRAFT ∧ t.createdAt = now ∧ t.updatedAt = now) := by
  constructor
  · constructor
    · rintro ⟨t, ht⟩
      have he := safeParse_success_eq ht
      subst he
      have hv : Valid (builtTraining input newId now) := ht
      have hf := (valid_iff _).mp hv
      exact ⟨hf.2.1, hf.2.2.1, hf.2.2.2.1, hf.2.2.2.2.1, hf.2.2.2.2.2.1⟩
    · intro hf
      refine ⟨builtTraining input newId now, ?_⟩
      show TrainingSchema.safeParse _ = _
      exact (valid_iff _).mpr
        ⟨hid, hf.1, hf.2.1, hf.2.2.1, hf.2.2.2.1, hf.2.2.2.2, rfl⟩
  · intro t ht
    have he := safeParse_success_eq ht
    subst he
    exact ⟨rfl, rfl, rfl, rfl, rfl, rfl, rfl, rfl, rfl, rfl, rfl⟩

/-- Witness for the amended C7: a concrete valid input with capacity 1 and
price 0 succeeds, and the success value has the stated fields. -/
theorem createTraining_success_spec_witness :
    (∃ t, createTraining
      { fractionalCapacityInput with capacity := 1 } sampleId 7 =
        .success t) ∧
    (1:Rat) ≤ 1 ∧ (0:Rat) ≤ 0 :=
  ⟨(createTraining_success_spec
      { fractionalCapacityInput with capacity := 1 } sampleId 7
      (by decide)).1.mpr
    ⟨by decide, by decide, by decide, by decide, by decide⟩,
   le_refl 1, le_refl 0⟩

/-- C8 (confirmed): `searchTrainings` returns a permutation of exactly the
input entities whose date lies in `[startOfDay startDate, endOfDay endDate]`,
sorted ascending by date; when `startDate ≤ endDate` an entity dated exactly
at either raw endpoint is in range, an entity one day before `startDate` or
one day after `endDate` never is, and an empty input yields an empty output.
(The model is pure, so the input list and entities are never mutated.) -/
theorem searchTrainings_spec (ts : List Training)
    (c : SearchTrainingCriteria) (h : c.startDate ≤ c.endDate) :
    (searchTrainings ts c).Perm
      (ts.filter (fun tr => dateInRange c tr.date)) ∧
    List.Pairwise (fun a b : Training => a.date ≤ b.date)
      (searchTrainings ts c) ∧
    dateInRange c c.startDate = true ∧
    dateInRange c c.endDate = true ∧
    dateInRange c (c.startDate - dayMs) = false ∧
    dateInRange c (c.endDate + dayMs) = false ∧
    searchTrainings [] c = [] := by
  refine ⟨List.mergeSort_perm _ _, ?_, ?_, ?_, ?_, ?_, ?_⟩
  · unfold searchTrainings
    refine @List.Pairwise.imp Training
      (fun a b : Training => (decide (a.date ≤ b.date)) = true)
      (fun a b : Training => a.date ≤ b.date)
      (fun {a b} hab => of_decide_eq_true hab) _ ?_
    apply List.sorted_mergeSort
    · exact fun a b d hab hbd => decide_eq_true
        (le_trans (of_decide_eq_true hab) (of_decide_eq_true hbd))
    · intro a b
      rcases Int.le_total a.date b.date with hle | hle <;> simp [hle]
  · simp only [dateInRange, startOfDay, endOfDay, dayMs,
      Bool.and_eq_true, decide_eq_true_eq]
    omega
  · simp only [dateInRange, startOfDay, endOfDay, dayMs,
      Bool.and_eq_true, decide_eq_true_eq]
    omega
  · rw [Bool.eq_false_iff]
    intro hcon
    simp only [dateInRange, startOfDay, endOfDay, dayMs,
      Bool.and_eq_true, decide_eq_true_eq] at hcon
    omega
  · rw [Bool.eq_false_iff]
    intro hcon
    simp only [dateInRange, startOfDay, endOfDay, dayMs,
      Bool.and_eq_true, decide_eq_true_eq] at hcon
    omega
  · exact List.mergeSort_nil

/-- Witness for C8 at a concrete list and range: the repository's scenario of
four entities of which the first three fall inside [2025-05-01, 2025-06-30]
is subsumed by a two-entity instance here. -/
theorem searchTrainings_spec_witness :
    (searchTrainings [sameDayEntity, draftSample]
      { startDate := 0, endDate := 1748736000000 }).Perm
      ([sameDayEntity, draftSample].filter
        (fun tr => dateInRange
          { startDate := 0, endDate := 1748736000000 } tr.date)) ∧
    dateInRange { startDate := 0, endDate := 1748736000000 } 0 = true :=
  have h := searchTrainings_spec [sameDayEntity, draftSample]
    { startDate := 0, endDate := 1748736000000 } (by decide)
  ⟨h.1, h.2.2.1⟩

/-- C9 counterexample: the source has no raw `startDate > endDate` guard —
with both instants on the same calendar day but startDate after endDate, the
day-widened interval is non-empty and a matching entity is returned, so the
result is not empty. -/
theorem searchTrainings_inverted_same_day_not_empty :
    sameDayInvertedCriteria.startDate > sameDayInvertedCriteria.endDate ∧
    searchTrainings [sameDayEntity] sameDayInvertedCriteria =
      [sameDayEntity] := by
  refine ⟨by decide, ?_⟩
  show (List.filter _ _).mergeSort _ = _
  rw [show List.filter
      (fun tr => dateInRange sameDayInvertedCriteria tr.date)
      [sameDayEntity] = [sameDayEntity] from by decide]
  exact List.mergeSort_singleton sameDayEntity

/-- C9 amended (proved): `searchTrainings` returns the empty sequence
whenever `startDate` falls on a strictly later calendar day than `endDate`
(the day-widened interval is then empty), regardless of the entities' dates;
a `startDate > endDate` within one and the same calendar day is not rejected
and can still return matches. -/
theorem searchTrainings_empty_of_later_day (ts : List Training)
    (c : SearchTrainingCriteria)
    (h : c.endDate / dayMs < c.startDate / dayMs) :
    searchTrainings ts c = [] := by
  unfold searchTrainings
  rw [List.filter_eq_nil_iff.mpr (fun tr _ => by
    rw [Bool.not_eq_true, Bool.eq_false_iff]
    intro hcon
    simp only [dateInRange, startOfDay, endOfDay, Bool.and_eq_true,
      decide_eq_true_eq] at hcon
    simp only [dayMs] at hcon h
    omega)]
  exact List.mergeSort_nil

/-- Witness for the amended C9: a range whose start day (day 2) is after its
end day (day 0) yields the empty result on a non-empty entity list. -/
theorem searchTrainings_empty_of_later_day_witness :
    searchTrainings [draftSample] { startDate := 172800000, endDate := 0 } =
      [] :=
  searchTrainings_empty_of_later_day [draftSample]
    { startDate := 172800000, endDate := 0 } (by decide)
